import Mathlib

/-!
Verification of `custom_components/proxmoxve/api.py`: a shallow embedding of
the `ProxmoxClient` session manager and the `post_api_command` dispatcher,
together with proofs of the specified properties.

The embedding follows the Python source line by line.  External collaborators
(the proxmoxer transport, Home Assistant's issue registry) are modelled as
explicit data: session handles are fresh natural-number identifiers, the POST
outcome is an input to the dispatcher, and issue-registry calls are recorded
as a list of operations.
-/

namespace ProxmoxVE

/-- The seven credential fields stored by `ProxmoxClient.__init__` /
`reconfigure` (`host`, `port`, `user`, `token_name`, `realm`, `password`,
`verify_ssl`).  The Python signature types `port : int | None`,
`realm : str | None`, `verify_ssl : bool | None`, hence the `Option`s. -/
@[ext]
structure ClientConfig where
  host : String
  port : Option Int
  user : String
  token_name : String
  realm : Option String
  password : String
  verify_ssl : Option Bool
deriving DecidableEq, Repr

/-- Observable lifecycle events of the session manager: a session handle was
closed (`session.close()` ran and the cached handle was dropped), or a new
`ProxmoxAPI` session was constructed. -/
inductive Event where
  | closedSession (id : Nat)
  | builtSession (id : Nat)
deriving DecidableEq, Repr

/-- State of a `ProxmoxClient` instance: the stored config, the cached
`self._proxmox` session (a fresh identifier when present), a supply of fresh
identifiers for newly constructed sessions, and the trace of lifecycle
events (most recent first). -/
structure PVEState where
  config : ClientConfig
  _proxmox : Option Nat
  nextId : Nat
  events : List Event
deriving DecidableEq, Repr

/-- `ProxmoxClient.__init__`: store the config, no session, no events. -/
def initClient (c : ClientConfig) : PVEState :=
  { config := c, _proxmox := none, nextId := 0, events := [] }

/-- `ProxmoxClient.close`: no-op when no session is cached; otherwise close
the underlying requests session and clear the cached handle.  (The source's
duck-typed `hasattr` probes for `_store`/`close` are modelled as the session
always exposing a closable requests session.) -/
def close (st : PVEState) : PVEState :=
  match st._proxmox with
  | none => st
  | some s =>
      { st with _proxmox := none, events := Event.closedSession s :: st.events }

/-- `ProxmoxClient.reconfigure`: compare the incoming 7-tuple with the stored
one; on exact match return immediately, otherwise store the new fields and
call `close()`. -/
def reconfigure (st : PVEState) (c : ClientConfig) : PVEState :=
  if c = st.config then st
  else close { st with config := c }

/-- `ProxmoxClient.build_client`: return immediately when a session is
cached, otherwise construct a fresh `ProxmoxAPI` session and cache it
(`_configure_pool` has no observable effect in this model). -/
def build_client (st : PVEState) : PVEState :=
  match st._proxmox with
  | some _ => st
  | none =>
      { st with _proxmox := some st.nextId, nextId := st.nextId + 1,
                events := Event.builtSession st.nextId :: st.events }

/-- `ProxmoxClient.get_api_client`: raise `HomeAssistantError` when no
session has been built, otherwise return the cached handle. -/
def get_api_client (st : PVEState) : Except String Nat :=
  match st._proxmox with
  | none => Except.error "Proxmox client has not been built"
  | some s => Except.ok s

/-- Well-formedness: a cached session handle was drawn from the fresh-id
supply, so it is below `nextId`.  Holds for `initClient` and is preserved by
every operation. -/
def Wf (st : PVEState) : Prop :=
  match st._proxmox with
  | none => True
  | some s => s < st.nextId

instance (st : PVEState) : Decidable (Wf st) :=
  match h : st._proxmox with
  | none => isTrue (by simp [Wf, h])
  | some s => decidable_of_iff (s < st.nextId) (by simp [Wf, h])

/-- Modelled from the spec: `DEFAULT_PORT` lives in `const.py`, which is not
part of the sources; the spec only says the port default is defined
externally (8006 is the standard Proxmox VE API port).  No claim depends on
the concrete value. -/
def DEFAULT_PORT : Option Int := some 8006

/-- Modelled from the spec: `DEFAULT_REALM` lives in `const.py`, which is
not part of the sources; the spec only says the realm default is defined
externally.  No claim depends on the concrete value. -/
def DEFAULT_REALM : Option String := some "pam"

/-- Modelled from the spec: `DEFAULT_VERIFY_SSL` lives in `const.py`, which
is not part of the sources; the spec only says the verify-TLS default is
defined externally.  No claim depends on the concrete value. -/
def DEFAULT_VERIFY_SSL : Option Bool := some true

/-- The config assembled by a `reconfigure` call that passes only `host`,
`user` and `password`: Python fills the omitted keyword arguments with
their declared defaults (`token_name=""`, `port=DEFAULT_PORT`,
`realm=DEFAULT_REALM`, `verify_ssl=DEFAULT_VERIFY_SSL`). -/
def defaultsConfig (host user password : String) : ClientConfig :=
  { host := host, port := DEFAULT_PORT, user := user, token_name := "",
    realm := DEFAULT_REALM, password := password,
    verify_ssl := DEFAULT_VERIFY_SSL }

/-- A `reconfigure` call that passes only `host`, `user` and `password`. -/
def reconfigure_defaults (st : PVEState) (host user password : String) :
    PVEState :=
  reconfigure st (defaultsConfig host user password)

/-- Modelled from the spec: `ProxmoxType` lives in `const.py`, which is not
part of the sources; the spec gives the closed set `Node`, `QEMU`
(virtual machine), `LXC` (container). -/
inductive ProxmoxType where
  | Node
  | QEMU
  | LXC
deriving DecidableEq, Repr

/-- Modelled from the spec: the string value of each `ProxmoxType` member (a
Python `StrEnum`), as interpolated into request paths — the spec's worked
examples give `qemu` and `lxc` path segments and `nodes/...` for nodes. -/
def ProxmoxType.str : ProxmoxType → String
  | .Node => "node"
  | .QEMU => "qemu"
  | .LXC => "lxc"

/-- Python `str.capitalize()` applied to the category value, as used for the
default human-readable resource label. -/
def ProxmoxType.capitalizeStr : ProxmoxType → String
  | .Node => "Node"
  | .QEMU => "Qemu"
  | .LXC => "Lxc"

/-- Python `str.upper()` applied to the category value, as used for the
QEMU/LXC resource label. -/
def ProxmoxType.upperStr : ProxmoxType → String
  | .Node => "NODE"
  | .QEMU => "QEMU"
  | .LXC => "LXC"

/-- Modelled from the spec: the value set of the `ProxmoxCommand` enum in
`const.py`, which is not part of the sources.  The spec lists start, stop,
shutdown, reset, suspend, resume, hibernate, start-all, stop-all,
wake-on-LAN, and its worked examples add reboot; the worked examples fix the
literals `start-all` and (for the node path test) hyphenated forms. -/
def proxmoxCommands : List String :=
  ["reboot", "resume", "shutdown", "start", "stop", "suspend", "reset",
   "start-all", "stop-all", "hibernate", "wakeonlan"]

/-- Python `str(x)` for `x : int | None`: `None` prints as `"None"`. -/
def optIntStr : Option Int → String
  | none => "None"
  | some i => toString i

/-- Python `str.strip(c)`: drop every occurrence of `c` from both ends. -/
def stripChar (c : Char) (s : String) : String :=
  String.mk (((s.data.dropWhile (· == c)).reverse.dropWhile (· == c)).reverse)

/-- Python `str.strip()`: drop whitespace from both ends. -/
def pyStrip (s : String) : String :=
  String.mk (((s.data.dropWhile Char.isWhitespace).reverse.dropWhile
    Char.isWhitespace).reverse)

/-- Helper for `splitOnChar`: accumulate the current piece (reversed) while
walking the characters. -/
def splitOnCharAux (c : Char) : List Char → List Char → List (List Char)
  | [], acc => [acc.reverse]
  | x :: xs, acc =>
      if x = c then acc.reverse :: splitOnCharAux c xs []
      else splitOnCharAux c xs (x :: acc)

/-- Python `str.split(sep)` for a one-character separator, as used with
`"("` and `","`: split at every occurrence, keeping empty pieces. -/
def splitOnChar (c : Char) (s : String) : List String :=
  (splitOnCharAux c s.data []).map String.mk

/-- The permission parser of the 403 handler:
`permissions = str(error).split("(")[1].split(",")` followed by
`f"['perm','{permissions[0]}',[{permissions[1].strip().strip(')')}]]"`.
Returns `none` exactly when Python raises `IndexError` (no `(` in the text,
or no `,` after the first `(`). -/
def parsePermission (text : String) : Option String :=
  match (splitOnChar '(' text).get? 1 with
  | none => none
  | some piece =>
      let permissions := splitOnChar ',' piece
      match permissions.get? 1 with
      | none => none
      | some p1 =>
          let p0 := permissions.headD ""
          let p1s := stripChar ')' (pyStrip p1)
          some s!"['perm','{p0}',[{p1s}]]"

/-- The message of the `HomeAssistantError` raised on 403 and on timeout:
`f"Proxmox {resource} {command} error - {error}"`. -/
def errMsg (resource command text : String) : String :=
  s!"Proxmox {resource} {command} error - {text}"

/-- The diagnostic-issue key computed before the POST: the default
`f"{entry_id}_command_forbiden"` is overwritten for `Node` with the node
name and for QEMU/LXC with the vm id (sic: the source spells `forbiden`). -/
def issueIdOf (entryId node : String) (vm_id : Option Int) :
    ProxmoxType → String
  | .Node => s!"{entryId}_{node}_command_forbiden"
  | _ =>
      let vmId := optIntStr vm_id
      s!"{entryId}_{vmId}_command_forbiden"

/-- The human-readable resource label: the default
`f"{api_category.capitalize()} {node}"` is overwritten for QEMU/LXC with
`f"{api_category.upper()} {vm_id}"`. -/
def resourceOf (node : String) (vm_id : Option Int) (cat : ProxmoxType) :
    String :=
  match cat with
  | .Node => s!"{ProxmoxType.capitalizeStr ProxmoxType.Node} {node}"
  | c =>
      let u := c.upperStr
      let vmId := optIntStr vm_id
      s!"{u} {vmId}"

/-- The request path chosen by the `if`/`elif` chain of `post_api_command`,
in source order: node-level start-all/stop-all/wakeonlan, then the node
status endpoint, then the hibernate→suspend?todisk=1 alias, then the generic
QEMU/LXC status endpoint. -/
def resolvePath (category : ProxmoxType) (command node : String)
    (vm_id : Option Int) : String :=
  let cat := category.str
  let vmId := optIntStr vm_id
  if category = ProxmoxType.Node ∧
      (command = "start-all" ∨ command = "stop-all" ∨ command = "wakeonlan")
  then s!"nodes/{node}/{command}"
  else if category = ProxmoxType.Node then
    s!"nodes/{node}/status?command={command}"
  else if command = "hibernate" then
    s!"nodes/{node}/{cat}/{vmId}/status/suspend?todisk=1"
  else
    s!"nodes/{node}/{cat}/{vmId}/status/{command}"

/-- The spec's path-resolution contract, stated from its four numbered rules
(first match wins): (1) `Node` with a command in
{StartAll, StopAll, WakeOnLAN} → `nodes/{node}/{command}`; (2) `Node`
otherwise → `nodes/{node}/status?command={command}`; (3) Hibernate for
QEMU/LXC → `nodes/{node}/{category}/{vmId}/status/suspend?todisk=1`;
(4) otherwise → `nodes/{node}/{category}/{vmId}/status/{command}`. -/
def specResolvePath (category : ProxmoxType) (command node : String)
    (vm_id : Option Int) : String :=
  let cat := category.str
  let vmId := optIntStr vm_id
  if category = ProxmoxType.Node ∧
      command ∈ ["start-all", "stop-all", "wakeonlan"]
  then s!"nodes/{node}/{command}"
  else if category = ProxmoxType.Node then
    s!"nodes/{node}/status?command={command}"
  else if command = "hibernate" then
    s!"nodes/{node}/{cat}/{vmId}/status/suspend?todisk=1"
  else
    s!"nodes/{node}/{cat}/{vmId}/status/{command}"

/-- Outcome of the single `proxmox.post(path)` call, an input to the model:
a normal return value, a `ResourceException` with its status code and
`str(error)` text, or a `ConnectTimeout`. -/
inductive PostOutcome where
  | ok (resp : Option String)
  | resourceError (status : Nat) (text : String)
  | connectTimeout (text : String)
deriving DecidableEq, Repr

/-- The exceptions `post_api_command` can let escape: the
`ValueError("Invalid Command")` precondition check, a `HomeAssistantError`
raised `from` an underlying cause, the `HomeAssistantError` of
`get_api_client` when no session is built, and the `IndexError` the 403
parser raises on text without a parenthesized permission descriptor. -/
inductive DispatchError where
  | invalidCommand (msg : String)
  | haError (msg : String) (cause : String)
  | notBuilt (msg : String)
  | indexError
deriving DecidableEq, Repr

/-- Calls made to the issue registry (`ir.create_issue` with severity,
translation key and placeholders, or `ir.delete_issue`), recorded in order. -/
inductive IssueOp where
  | create (issueId severity translationKey : String)
      (placeholders : List (String × String))
  | delete (issueId : String)
deriving DecidableEq, Repr

deriving instance DecidableEq for Except

/-- The complete observable behaviour of one `post_api_command` call: the
returned value or escaped exception, the POST paths submitted, and the
issue-registry operations performed. -/
structure DispatchOut where
  outcome : Except DispatchError (Option String)
  posts : List String
  issueOps : List IssueOp
deriving DecidableEq, Repr

/-- `post_api_command(self, proxmox_client, api_category, command, node,
vm_id)`: fetch the built client, validate the command against
`ProxmoxCommand`, derive the issue id and resource label, POST to the
resolved path, and translate the outcome — 403 parses the permission text,
upserts the diagnostic issue and re-raises; timeout re-raises; any other
`ResourceException` falls through, so the epilogue deletes the issue and the
`result = None` initialisation is returned.  `entryId` is
`self.config_entry.entry_id` and `username` is
`self.config_entry.data[CONF_USERNAME]`. -/
def post_api_command (st : PVEState) (entryId username : String)
    (api_category : ProxmoxType) (command node : String) (vm_id : Option Int)
    (outcome : PostOutcome) : DispatchOut :=
  match st._proxmox with
  | none =>
      { outcome := Except.error
          (DispatchError.notBuilt "Proxmox client has not been built"),
        posts := [], issueOps := [] }
  | some _ =>
      if command ∈ proxmoxCommands then
        let issue_id := issueIdOf entryId node vm_id api_category
        let resource := resourceOf node vm_id api_category
        let path := resolvePath api_category command node vm_id
        match outcome with
        | .ok resp =>
            { outcome := Except.ok resp, posts := [path],
              issueOps := [IssueOp.delete issue_id] }
        | .resourceError status text =>
            if status = 403 then
              match parsePermission text with
              | none =>
                  { outcome := Except.error DispatchError.indexError,
                    posts := [path], issueOps := [] }
              | some permission_check =>
                  { outcome := Except.error
                      (DispatchError.haError (errMsg resource command text)
                        text),
                    posts := [path],
                    issueOps := [IssueOp.create issue_id "error"
                      "resource_command_forbiden"
                      [("resource", resource), ("user", username),
                       ("permission", permission_check),
                       ("command", command)]] }
            else
              { outcome := Except.ok none, posts := [path],
                issueOps := [IssueOp.delete issue_id] }
        | .connectTimeout text =>
            { outcome := Except.error
                (DispatchError.haError (errMsg resource command text) text),
              posts := [path], issueOps := [] }
      else
        { outcome := Except.error
            (DispatchError.invalidCommand "Invalid Command"),
          posts := [], issueOps := [] }

/-- A sample configuration used to instantiate the universally quantified
theorems below at concrete inputs. -/
def cfgA : ClientConfig :=
  { host := "pve.example", port := some 8006, user := "root",
    token_name := "", realm := some "pam", password := "pw",
    verify_ssl := some true }

/-- A second sample configuration, differing from `cfgA` in the host. -/
def cfgB : ClientConfig :=
  { cfgA with host := "pve2.example" }

/-- A client state with a built session, as produced by `__init__` followed
by `build_client`. -/
def stBuilt : PVEState :=
  build_client (initClient cfgA)

/-- A configuration carrying a token name, i.e. differing from the
`reconfigure` defaults in the `token_name` field. -/
def cfgTok : ClientConfig :=
  { cfgA with token_name := "tok" }

/-- A built client state whose stored config carries a token name. -/
def stTok : PVEState :=
  build_client (initClient cfgTok)

end ProxmoxVE

namespace ProxmoxVE

/-- Claim C4: `reconfigure` with a config equal field-by-field (all 7
fields: host, port, user, tokenName, realm, password, verifySSL) to the
stored one is a true no-op: the resulting state — stored config, cached
session and event trace included — is unchanged, so no close occurs. -/
theorem C4_reconfigure_unchanged_noop (st : PVEState) (c : ClientConfig)
    (hhost : c.host = st.config.host) (hport : c.port = st.config.port)
    (huser : c.user = st.config.user)
    (htok : c.token_name = st.config.token_name)
    (hrealm : c.realm = st.config.realm)
    (hpass : c.password = st.config.password)
    (hssl : c.verify_ssl = st.config.verify_ssl) :
    reconfigure st c = st := by
  have hc : c = st.config :=
    ClientConfig.ext hhost hport huser htok hrealm hpass hssl
  simp [reconfigure, hc]

/-- Witness for C4 at a concrete built state and its own stored config. -/
theorem C4_witness :
    cfgA.host = stBuilt.config.host ∧ reconfigure stBuilt cfgA = stBuilt :=
  ⟨by decide,
   C4_reconfigure_unchanged_noop stBuilt cfgA (by decide) (by decide)
     (by decide) (by decide) (by decide) (by decide) (by decide)⟩

/-- Claim C5: `reconfigure` with a config differing from the stored one
stores the new config, drops the cached session, closes it exactly once
(one `closedSession` event is appended when a session was cached, none
otherwise), and a subsequent `build_client` constructs a fresh session
distinct from the old handle. -/
theorem C5_reconfigure_changed_closes (st : PVEState) (c : ClientConfig)
    (hne : c ≠ st.config) (hwf : Wf st) :
    (reconfigure st c).config = c
    ∧ (reconfigure st c)._proxmox = none
    ∧ (st._proxmox = none → (reconfigure st c).events = st.events)
    ∧ (∀ s, st._proxmox = some s →
        (reconfigure st c).events = Event.closedSession s :: st.events)
    ∧ (build_client (reconfigure st c))._proxmox = some st.nextId
    ∧ (∀ s, st._proxmox = some s → st.nextId ≠ s) := by
  unfold reconfigure
  rw [if_neg hne]
  cases hp : st._proxmox with
  | none => simp [close, build_client, hp]
  | some s =>
      have hlt : s < st.nextId := by simpa [Wf, hp] using hwf
      simp [close, build_client, hp]
      omega

/-- Witness for C5 at a concrete built state and a config with a new host. -/
theorem C5_witness :
    cfgB ≠ stBuilt.config
    ∧ (reconfigure stBuilt cfgB).config = cfgB
    ∧ (reconfigure stBuilt cfgB)._proxmox = none
    ∧ (reconfigure stBuilt cfgB).events
        = Event.closedSession 0 :: stBuilt.events
    ∧ (build_client (reconfigure stBuilt cfgB))._proxmox
        = some stBuilt.nextId := by
  have h := C5_reconfigure_changed_closes stBuilt cfgB (by decide) (by decide)
  exact ⟨by decide, h.1, h.2.1, h.2.2.2.1 0 (by decide), h.2.2.2.2.1⟩

/-- Claim C6: `build_client` is idempotent — when a session is cached it
returns the state unchanged, and two consecutive builds equal one. -/
theorem C6_build_idempotent (st : PVEState) :
    build_client (build_client st) = build_client st
    ∧ (st._proxmox.isSome = true → build_client st = st) := by
  cases hp : st._proxmox with
  | none => simp [build_client, hp]
  | some s => simp [build_client, hp]

/-- Witness for C6 at a concrete built state. -/
theorem C6_witness :
    stBuilt._proxmox.isSome = true ∧ build_client stBuilt = stBuilt :=
  ⟨by decide, (C6_build_idempotent stBuilt).2 (by decide)⟩

/-- Claim C10: calling `reconfigure` with only `host`, `user` and
`password` (Python fills `token_name`, `port`, `realm`, `verify_ssl` with
their declared defaults) on a state whose stored optional fields differ
from those defaults counts as a config change: the omitted fields are
overwritten with the defaults, the three passed values are kept, and the
cached session is dropped and closed. -/
theorem C10_reconfigure_defaults_overwrites (st : PVEState)
    (hdiff : st.config.token_name ≠ "" ∨ st.config.port ≠ DEFAULT_PORT
      ∨ st.config.realm ≠ DEFAULT_REALM
      ∨ st.config.verify_ssl ≠ DEFAULT_VERIFY_SSL) :
    (reconfigure_defaults st st.config.host st.config.user
        st.config.password).config
      = defaultsConfig st.config.host st.config.user st.config.password
    ∧ (reconfigure_defaults st st.config.host st.config.user
        st.config.password)._proxmox = none
    ∧ (∀ s, st._proxmox = some s →
        (reconfigure_defaults st st.config.host st.config.user
            st.config.password).events
          = Event.closedSession s :: st.events) := by
  have hne : defaultsConfig st.config.host st.config.user
      st.config.password ≠ st.config := by
    intro h
    rcases hdiff with h1 | h1 | h1 | h1 <;>
      exact h1 (by rw [← h]; simp [defaultsConfig])
  unfold reconfigure_defaults reconfigure
  rw [if_neg hne]
  cases hp : st._proxmox with
  | none => simp [close, hp]
  | some s => simp [close, hp]

/-- Witness for C10 at a built state whose stored config has a token name. -/
theorem C10_witness :
    cfgTok.token_name ≠ ""
    ∧ (reconfigure_defaults stTok stTok.config.host stTok.config.user
        stTok.config.password)._proxmox = none
    ∧ (reconfigure_defaults stTok stTok.config.host stTok.config.user
        stTok.config.password).events
        = Event.closedSession 0 :: stTok.events := by
  have h := C10_reconfigure_defaults_overwrites stTok (Or.inl (by decide))
  exact ⟨by decide, h.2.1, h.2.2 0 (by decide)⟩

end ProxmoxVE

namespace ProxmoxVE

/-- Claim C1: a dispatch with a built client and a recognized command makes
exactly one POST, to the path given by the spec's priority rules: node-level
start-all/stop-all/wakeonlan, then the node status endpoint, then the
hibernate→`suspend?todisk=1` alias for QEMU/LXC, then the generic
`status/{command}` endpoint — and this holds for every POST outcome. -/
theorem C1_single_post_resolved_path (st : PVEState)
    (entryId username : String) (cat : ProxmoxType) (cmd node : String)
    (vmId : Option Int) (out : PostOutcome)
    (hbuilt : st._proxmox.isSome = true) (hcmd : cmd ∈ proxmoxCommands) :
    (post_api_command st entryId username cat cmd node vmId out).posts
      = [specResolvePath cat cmd node vmId] := by
  have hres : resolvePath cat cmd node vmId = specResolvePath cat cmd node vmId := by
    simp [resolvePath, specResolvePath]
  cases hp : st._proxmox with
  | none => rw [hp] at hbuilt; simp at hbuilt
  | some s =>
      cases out with
      | ok resp => simp [post_api_command, hp, hcmd, hres]
      | resourceError status text =>
          by_cases h4 : status = 403
          · cases hpp : parsePermission text <;>
              simp [post_api_command, hp, hcmd, hres, h4, hpp]
          · simp [post_api_command, hp, hcmd, hres, h4]
      | connectTimeout text => simp [post_api_command, hp, hcmd, hres]

/-- Witness for C1: the hibernate alias for QEMU vm 101 on node pve1. -/
theorem C1_witness :
    stBuilt._proxmox.isSome = true ∧ "hibernate" ∈ proxmoxCommands
    ∧ (post_api_command stBuilt "e1" "root@pam" ProxmoxType.QEMU "hibernate"
        "pve1" (some 101) (PostOutcome.ok none)).posts
      = [specResolvePath ProxmoxType.QEMU "hibernate" "pve1" (some 101)]
    ∧ specResolvePath ProxmoxType.QEMU "hibernate" "pve1" (some 101)
      = "nodes/pve1/qemu/101/status/suspend?todisk=1" :=
  ⟨by decide, by decide,
   C1_single_post_resolved_path stBuilt "e1" "root@pam" ProxmoxType.QEMU
     "hibernate" "pve1" (some 101) (PostOutcome.ok none) (by decide)
     (by decide),
   by decide⟩

/-- Claim C7: a dispatch whose command is not in the known command set
performs no POST and no issue-registry operation, and (when the client is
built, so the preceding `get_api_client` does not fail first) raises the
`ValueError("Invalid Command")`. -/
theorem C7_invalid_command_no_io (st : PVEState)
    (entryId username : String) (cat : ProxmoxType) (cmd node : String)
    (vmId : Option Int) (out : PostOutcome)
    (hcmd : cmd ∉ proxmoxCommands) :
    (post_api_command st entryId username cat cmd node vmId out).posts = []
    ∧ (post_api_command st entryId username cat cmd node vmId out).issueOps
        = []
    ∧ (st._proxmox.isSome = true →
        (post_api_command st entryId username cat cmd node vmId out).outcome
          = Except.error (DispatchError.invalidCommand "Invalid Command")) := by
  cases hp : st._proxmox with
  | none => simp [post_api_command, hp]
  | some s => simp [post_api_command, hp, hcmd]

/-- Witness for C7 at the unrecognized command `explode`. -/
theorem C7_witness :
    "explode" ∉ proxmoxCommands
    ∧ (post_api_command stBuilt "e1" "root@pam" ProxmoxType.QEMU "explode"
        "pve1" (some 101) (PostOutcome.ok none)).posts = []
    ∧ (post_api_command stBuilt "e1" "root@pam" ProxmoxType.QEMU "explode"
        "pve1" (some 101) (PostOutcome.ok none)).issueOps = []
    ∧ (post_api_command stBuilt "e1" "root@pam" ProxmoxType.QEMU "explode"
        "pve1" (some 101) (PostOutcome.ok none)).outcome
      = Except.error (DispatchError.invalidCommand "Invalid Command") := by
  have h := C7_invalid_command_no_io stBuilt "e1" "root@pam" ProxmoxType.QEMU
    "explode" "pve1" (some 101) (PostOutcome.ok none) (by decide)
  exact ⟨by decide, h.1, h.2.1, h.2.2 (by decide)⟩

/-- Claim C8: a dispatch whose POST returns normally deletes the diagnostic
issue at the key derived for the resource and returns the raw POST
response; the POST goes to the resolved path and nothing else happens. -/
theorem C8_success_deletes_issue (st : PVEState)
    (entryId username : String) (cat : ProxmoxType) (cmd node : String)
    (vmId : Option Int) (resp : Option String)
    (hbuilt : st._proxmox.isSome = true) (hcmd : cmd ∈ proxmoxCommands) :
    post_api_command st entryId username cat cmd node vmId
        (PostOutcome.ok resp)
      = { outcome := Except.ok resp,
          posts := [resolvePath cat cmd node vmId],
          issueOps := [IssueOp.delete (issueIdOf entryId node vmId cat)] } := by
  cases hp : st._proxmox with
  | none => rw [hp] at hbuilt; simp at hbuilt
  | some s => simp [post_api_command, hp, hcmd]

/-- Witness for C8: a successful LXC stop deletes the vm-keyed issue. -/
theorem C8_witness :
    stBuilt._proxmox.isSome = true ∧ "stop" ∈ proxmoxCommands
    ∧ post_api_command stBuilt "e1" "root@pam" ProxmoxType.LXC "stop" "pve2"
        (some 205) (PostOutcome.ok (some "taskid"))
      = { outcome := Except.ok (some "taskid"),
          posts := [resolvePath ProxmoxType.LXC "stop" "pve2" (some 205)],
          issueOps := [IssueOp.delete
            (issueIdOf "e1" "pve2" (some 205) ProxmoxType.LXC)] }
    ∧ issueIdOf "e1" "pve2" (some 205) ProxmoxType.LXC
      = "e1_205_command_forbiden" :=
  ⟨by decide, by decide,
   C8_success_deletes_issue stBuilt "e1" "root@pam" ProxmoxType.LXC "stop"
     "pve2" (some 205) (some "taskid") (by decide) (by decide),
   by decide⟩

/-- Claim C9: a dispatch whose POST raises `ConnectTimeout` re-raises a
descriptive `HomeAssistantError` wrapping the timeout, and performs no
issue-registry operation at all. -/
theorem C9_timeout_no_issue_ops (st : PVEState)
    (entryId username : String) (cat : ProxmoxType) (cmd node : String)
    (vmId : Option Int) (t : String)
    (hbuilt : st._proxmox.isSome = true) (hcmd : cmd ∈ proxmoxCommands) :
    post_api_command st entryId username cat cmd node vmId
        (PostOutcome.connectTimeout t)
      = { outcome := Except.error (DispatchError.haError
            (errMsg (resourceOf node vmId cat) cmd t) t),
          posts := [resolvePath cat cmd node vmId],
          issueOps := [] } := by
  cases hp : st._proxmox with
  | none => rw [hp] at hbuilt; simp at hbuilt
  | some s => simp [post_api_command, hp, hcmd]

/-- Witness for C9: a timed-out node reboot. -/
theorem C9_witness :
    stBuilt._proxmox.isSome = true ∧ "reboot" ∈ proxmoxCommands
    ∧ post_api_command stBuilt "e1" "root@pam" ProxmoxType.Node "reboot"
        "pve1" none (PostOutcome.connectTimeout "timed out")
      = { outcome := Except.error (DispatchError.haError
            (errMsg (resourceOf "pve1" none ProxmoxType.Node) "reboot"
              "timed out") "timed out"),
          posts := [resolvePath ProxmoxType.Node "reboot" "pve1" none],
          issueOps := [] }
    ∧ errMsg (resourceOf "pve1" none ProxmoxType.Node) "reboot" "timed out"
      = "Proxmox Node pve1 reboot error - timed out" :=
  ⟨by decide, by decide,
   C9_timeout_no_issue_ops stBuilt "e1" "root@pam" ProxmoxType.Node "reboot"
     "pve1" none "timed out" (by decide) (by decide),
   by decide⟩

end ProxmoxVE

namespace ProxmoxVE

/-- Counterexample to claim C2 as stated: at a concrete 403 the single issue
created has id `e1_pve1_command_forbiden` and translation key
`resource_command_forbiden` (the source's spelling), not the claimed
`..._command_forbidden` / `resource_command_forbidden`. -/
theorem C2_counterexample :
    (post_api_command stBuilt "e1" "root@pam" ProxmoxType.Node "reboot"
        "pve1" none (PostOutcome.resourceError 403
          "Permission check failed (/nodes/pve1, Sys.PowerMgmt)")).issueOps
      = [IssueOp.create "e1_pve1_command_forbiden" "error"
          "resource_command_forbiden"
          [("resource", "Node pve1"), ("user", "root@pam"),
           ("permission", "['perm','/nodes/pve1',[Sys.PowerMgmt]]"),
           ("command", "reboot")]]
    ∧ "e1_pve1_command_forbiden" ≠ "e1_pve1_command_forbidden"
    ∧ "resource_command_forbiden" ≠ "resource_command_forbidden" := by
  decide

/-- Claim C2 (amended): a dispatch hitting a 403 whose error text carries a
parenthesized permission descriptor upserts exactly one diagnostic issue —
id `{entryId}_{node}_command_forbiden` for `Node` and
`{entryId}_{vmId}_command_forbiden` for QEMU/LXC (sic, the source's
spelling), severity `error`, translation key `resource_command_forbiden`
(sic), placeholders resource/user/permission/command with `user` the stored
config's username — deletes nothing, and re-raises a descriptive error
wrapping the original cause. -/
theorem C2_forbidden_issue_upserted (st : PVEState)
    (entryId username : String) (cat : ProxmoxType) (cmd node : String)
    (vmId : Option Int) (text pc : String)
    (hbuilt : st._proxmox.isSome = true) (hcmd : cmd ∈ proxmoxCommands)
    (hparse : parsePermission text = some pc) :
    post_api_command st entryId username cat cmd node vmId
        (PostOutcome.resourceError 403 text)
      = { outcome := Except.error (DispatchError.haError
            (errMsg (resourceOf node vmId cat) cmd text) text),
          posts := [resolvePath cat cmd node vmId],
          issueOps := [IssueOp.create (issueIdOf entryId node vmId cat)
            "error" "resource_command_forbiden"
            [("resource", resourceOf node vmId cat), ("user", username),
             ("permission", pc), ("command", cmd)]] }
    ∧ issueIdOf entryId node vmId ProxmoxType.Node
        = s!"{entryId}_{node}_command_forbiden"
    ∧ (∀ v : Int, issueIdOf entryId node (some v) ProxmoxType.QEMU
        = s!"{entryId}_{v}_command_forbiden")
    ∧ (∀ v : Int, issueIdOf entryId node (some v) ProxmoxType.LXC
        = s!"{entryId}_{v}_command_forbiden") := by
  refine ⟨?_, rfl, fun v => rfl, fun v => rfl⟩
  cases hp : st._proxmox with
  | none => rw [hp] at hbuilt; simp at hbuilt
  | some s => simp [post_api_command, hp, hcmd, hparse]

/-- Witness for the amended C2: a 403 on QEMU vm 101. -/
theorem C2_witness :
    parsePermission "Permission check failed (/vms/101, VM.PowerMgmt)"
      = some "['perm','/vms/101',[VM.PowerMgmt]]"
    ∧ (post_api_command stBuilt "e1" "root@pam" ProxmoxType.QEMU "stop"
        "pve1" (some 101) (PostOutcome.resourceError 403
          "Permission check failed (/vms/101, VM.PowerMgmt)")).issueOps
      = [IssueOp.create "e1_101_command_forbiden" "error"
          "resource_command_forbiden"
          [("resource", "QEMU 101"), ("user", "root@pam"),
           ("permission", "['perm','/vms/101',[VM.PowerMgmt]]"),
           ("command", "stop")]] := by
  have h := C2_forbidden_issue_upserted stBuilt "e1" "root@pam"
    ProxmoxType.QEMU "stop" "pve1" (some 101)
    "Permission check failed (/vms/101, VM.PowerMgmt)"
    "['perm','/vms/101',[VM.PowerMgmt]]" (by decide) (by decide) (by decide)
  refine ⟨by decide, ?_⟩
  rw [h.1]
  decide

/-- Counterexample to claim C3 as stated: a caught `ResourceException` with
status 500 is not re-raised — the dispatch returns normally (the `result =
None` initialisation) and even deletes the diagnostic issue. -/
theorem C3_counterexample :
    (post_api_command stBuilt "e1" "root@pam" ProxmoxType.QEMU "stop" "pve1"
        (some 100) (PostOutcome.resourceError 500 "internal error")).outcome
      = Except.ok none
    ∧ (post_api_command stBuilt "e1" "root@pam" ProxmoxType.QEMU "stop"
        "pve1" (some 100)
        (PostOutcome.resourceError 500 "internal error")).issueOps
      = [IssueOp.delete "e1_100_command_forbiden"] := by
  decide

/-- Claim C3 (amended): of the exceptions caught by the dispatcher, a
`ConnectTimeout` and a 403 `ResourceException` with parseable text are
re-raised as descriptive errors wrapping the cause, and a 403 with
unparseable text escapes as an `IndexError`; but a `ResourceException` with
any other status is swallowed — the call returns `None` normally and the
issue at the derived key is deleted. -/
theorem C3_error_path_taxonomy (st : PVEState) (entryId username : String)
    (cat : ProxmoxType) (cmd node : String) (vmId : Option Int)
    (hbuilt : st._proxmox.isSome = true) (hcmd : cmd ∈ proxmoxCommands) :
    (∀ t, (post_api_command st entryId username cat cmd node vmId
        (PostOutcome.connectTimeout t)).outcome
      = Except.error (DispatchError.haError
          (errMsg (resourceOf node vmId cat) cmd t) t))
    ∧ (∀ t pc, parsePermission t = some pc →
        (post_api_command st entryId username cat cmd node vmId
          (PostOutcome.resourceError 403 t)).outcome
        = Except.error (DispatchError.haError
            (errMsg (resourceOf node vmId cat) cmd t) t))
    ∧ (∀ t, parsePermission t = none →
        (post_api_command st entryId username cat cmd node vmId
          (PostOutcome.resourceError 403 t)).outcome
        = Except.error DispatchError.indexError)
    ∧ (∀ status t, status ≠ 403 →
        (post_api_command st entryId username cat cmd node vmId
          (PostOutcome.resourceError status t)).outcome = Except.ok none
        ∧ (post_api_command st entryId username cat cmd node vmId
            (PostOutcome.resourceError status t)).issueOps
          = [IssueOp.delete (issueIdOf entryId node vmId cat)]) := by
  cases hp : st._proxmox with
  | none => rw [hp] at hbuilt; simp at hbuilt
  | some s =>
      refine ⟨fun t => ?_, fun t pc hpc => ?_, fun t hpc => ?_,
        fun status t h4 => ?_⟩
      · simp [post_api_command, hp, hcmd]
      · simp [post_api_command, hp, hcmd, hpc]
      · simp [post_api_command, hp, hcmd, hpc]
      · simp [post_api_command, hp, hcmd, h4]

/-- Witness for the amended C3: a timed-out QEMU stop re-raises. -/
theorem C3_witness :
    stBuilt._proxmox.isSome = true ∧ "stop" ∈ proxmoxCommands
    ∧ (post_api_command stBuilt "e1" "root@pam" ProxmoxType.QEMU "stop"
        "pve1" (some 100) (PostOutcome.connectTimeout "boom")).outcome
      = Except.error (DispatchError.haError
          (errMsg (resourceOf "pve1" (some 100) ProxmoxType.QEMU) "stop"
            "boom") "boom") :=
  ⟨by decide, by decide,
   (C3_error_path_taxonomy stBuilt "e1" "root@pam" ProxmoxType.QEMU "stop"
     "pve1" (some 100) (by decide) (by decide)).1 "boom"⟩

end ProxmoxVE
